import Mathlib

/-
Verification development for the Retail Analytics Copilot repository.

Shallow embedding of:
  src/agent/tools/sqlite_tool.py      (run_sqlite_query)
  src/agent/graph_hybrid.py           (the LangGraph workflow: nodes, routing, wiring)
  src/agent/rag/retrieval.py          (LocalRetriever: chunking and TF-IDF top-k search)
  src/rag_agent_hybrid.py             (run_batch)

External collaborators (the DSPy language-model modules, the sqlite3 engine, the
sklearn vectorizer and cosine-similarity computation, the LangGraph runtime) are
modelled at their boundaries: their outputs are parameters or oracle functions,
while every line of control flow and data manipulation written in this
repository is translated directly.

Cell values coming back from the database are Python-dynamic; they are modelled
by a type parameter, since no code in the repository inspects them.
-/

namespace RetailCopilot

/-! ## src/agent/tools/sqlite_tool.py -/

/-- Boundary model of one sqlite3 call: the engine either produces a cursor
with fetched rows and an optional description (sqlite3 leaves
cursor.description as None for statements without a result set; the embedded
description is already projected to the column names, the first slot of each
of the 7-tuples read by the list comprehension on line 21), or raises an
sqlite3.Error whose str() is msg. -/
inductive DbResponse (α : Type) where
  | result (rows : List (List α)) (description : Option (List String))
  | raises (msg : String)
deriving DecidableEq

/-- The value run_sqlite_query returns: the Python function returns the tuple
(rows, column_names) on success and (str(e), None) on error.  The ok
constructor is the tuple whose second slot is a list, the err constructor is
the tuple whose second slot is None and whose first slot is the error text. -/
inductive ExecResult (α : Type) where
  | ok (rows : List (List α)) (cols : List String)
  | err (msg : String)
deriving DecidableEq

/-- sqlite_tool.run_sqlite_query: execute the query, fetch all rows, project
the column names from the description when present ([] when the description is
None), and turn an sqlite3.Error into (str(e), None). -/
def run_sqlite_query {α : Type} (db : String → DbResponse α) (query : String) :
    ExecResult α :=
  match db query with
  | .result rows desc => .ok rows (desc.getD [])
  | .raises e => .err e

/-- The second component of the returned Python tuple: the column list on
success, None on failure.  The caller (sql_executor_node) branches on this
being None. -/
def pyColumns {α : Type} : ExecResult α → Option (List String)
  | .ok _ cols => some cols
  | .err _ => none

/-! ## src/agent/graph_hybrid.py: the AgentState TypedDict

run_batch (src/rag_agent_hybrid.py lines 38-49) initialises classification,
sql_query, sql_results, retrieved_docs and final_answer to None, so those
fields are Options. -/

structure AgentState (α : Type) where
  question : String
  format_hint : Option String
  classification : Option String
  sql_query : Option String
  sql_results : Option (List (List (String × α)))
  retrieved_docs : Option (List String)
  errors : List String
  retry_count : Nat
  final_answer : Option String
deriving DecidableEq

/-- The initial state built by run_batch before invoking the graph. -/
def initState {α : Type} (q : String) (fh : Option String) : AgentState α :=
  { question := q, format_hint := fh, classification := none, sql_query := none
  , sql_results := none, retrieved_docs := none, errors := [], retry_count := 0
  , final_answer := none }

/-! ## graph_hybrid.py: the graph nodes

Each node function returns a partial dict that LangGraph merges into the
state; the embedding applies the merge directly.  The output of each external
collaborator (router LLM, TextToSQL LLM, retriever formatting, synthesizer
LLM, database) is a parameter. -/

/-- router_node (lines 47-52): store the classification produced by the DSPy
Router module and reset the error list. -/
def router_node {α : Type} (classification : String) (s : AgentState α) :
    AgentState α :=
  { s with classification := some classification, errors := [] }

/-- retriever_node (lines 54-61): store the formatted retrieval results.  The
formatting of search hits into strings involves Python float printing and is
taken as the parameter docs; the node writes nothing else. -/
def retriever_node {α : Type} (docs : List String) (s : AgentState α) :
    AgentState α :=
  { s with retrieved_docs := some docs }

/-- The joined error context "\n".join(state['errors']) of line 69. -/
def errorContext (errors : List String) : String :=
  String.intercalate "\n" errors

/-- Lines 67-70 of sql_generator_node: the question is augmented with the
repair template exactly when the error list is non-empty. -/
def questionWithContext {α : Type} (s : AgentState α) : String :=
  if s.errors ≠ [] then
    "Previous attempt failed with error: " ++ errorContext s.errors ++
      ". Please correct the query. Original question: " ++ s.question
  else s.question

/-- sql_generator_node (lines 63-74): present questionWithContext to the
TextToSQL module (parameter generate), store the produced query and clear the
error list. -/
def sql_generator_node {α : Type} (generate : String → String)
    (s : AgentState α) : AgentState α :=
  { s with sql_query := some (generate (questionWithContext s)), errors := [] }

/-- Line 85: results = [dict(zip(column_names, row)) for row in rows].  The
dict is modelled as the association list produced by zip (zip truncates at the
shorter list, as in Python). -/
def rowsAsDicts {α : Type} (cols : List String) (rows : List (List α)) :
    List (List (String × α)) :=
  rows.map (fun row => cols.zip row)

/-- sql_executor_node (lines 76-89): on success (column list present) store
the rows as dicts; on error append the error text to the error list and
increment the retry counter.  The run_sqlite_query outcome is the parameter. -/
def sql_executor_node {α : Type} (res : ExecResult α) (s : AgentState α) :
    AgentState α :=
  match res with
  | .ok rows cols => { s with sql_results := some (rowsAsDicts cols rows) }
  | .err msg =>
      { s with errors := s.errors ++ [msg], retry_count := s.retry_count + 1 }

/-- synthesizer_node (lines 91-106): store the Synthesizer module output as
the final answer. -/
def synthesizer_node {α : Type} (answer : String) (s : AgentState α) :
    AgentState α :=
  { s with final_answer := some answer }

/-! ## graph_hybrid.py: conditional routing functions -/

/-- route_question (lines 111-119).  The Python function returns a label
string, or falls off the end (None) for any classification outside
SQL / RAG / Hybrid. -/
def route_question {α : Type} (s : AgentState α) : Option String :=
  if s.classification = some "SQL" then some "generate_sql"
  else if s.classification = some "RAG" then some "retrieve_docs"
  else if s.classification = some "Hybrid" then some "hybrid_flow"
  else none

/-- check_sql_execution (lines 121-128): retry while errors are present and
the (already incremented) retry counter is below 2. -/
def check_sql_execution {α : Type} (s : AgentState α) : String :=
  if s.errors ≠ [] ∧ s.retry_count < 2 then "generate_sql" else "synthesize"

/-- route_after_retrieval (lines 153-159). -/
def route_after_retrieval {α : Type} (s : AgentState α) : String :=
  if s.classification = some "Hybrid" then "generate_sql" else "synthesize"

/-! ## graph_hybrid.py: graph wiring (lines 133-173) -/

/-- The graph nodes, plus the END sentinel. -/
inductive Node where
  | router
  | retrieve_docs
  | generate_sql
  | execute_sql
  | synthesize
  | terminal
deriving DecidableEq

/-- The path map of add_conditional_edges("router", route_question, ...)
(lines 144-148): both "retrieve_docs" and "hybrid_flow" map to the
retrieve_docs node.  A label outside the map has no target (the LangGraph
runtime fails there). -/
def routerPathMap (lbl : String) : Option Node :=
  if lbl = "generate_sql" then some .generate_sql
  else if lbl = "retrieve_docs" then some .retrieve_docs
  else if lbl = "hybrid_flow" then some .retrieve_docs
  else none

/-- The path map of add_conditional_edges("retrieve_docs",
route_after_retrieval, ...) (lines 161-164). -/
def retrievePathMap (lbl : String) : Option Node :=
  if lbl = "generate_sql" then some .generate_sql
  else if lbl = "synthesize" then some .synthesize
  else none

/-- The path map of add_conditional_edges("execute_sql", check_sql_execution,
...) (lines 166-169). -/
def executePathMap (lbl : String) : Option Node :=
  if lbl = "generate_sql" then some .generate_sql
  else if lbl = "synthesize" then some .synthesize
  else none

/-- The set (as a list) of nodes scheduled after node n completes leaving
state s, exactly as wired in lines 143-170.  Note that retrieve_docs has BOTH
the unconditional edge add_edge("retrieve_docs", "synthesize") of line 151 AND
the conditional edges of lines 161-164; in LangGraph both fire, so synthesize
is always among the successors of retrieve_docs. -/
def stepTargets {α : Type} (n : Node) (s : AgentState α) : List Node :=
  match n with
  | .router => ((route_question s).bind routerPathMap).toList
  | .retrieve_docs =>
      Node.synthesize :: (retrievePathMap (route_after_retrieval s)).toList
  | .generate_sql => [Node.execute_sql]
  | .execute_sql => (executePathMap (check_sql_execution s)).toList
  | .synthesize => [Node.terminal]
  | .terminal => []

/-- One node execution: node n maps state s to state s'.  The outputs of the
external collaborators invoked inside the node are existentially free
constructor arguments, so the relation covers every possible collaborator
behaviour. -/
inductive NodeRun {α : Type} : Node → AgentState α → AgentState α → Prop where
  | router (c : String) (s : AgentState α) :
      NodeRun .router s (router_node c s)
  | retrieve (docs : List String) (s : AgentState α) :
      NodeRun .retrieve_docs s (retriever_node docs s)
  | generate (g : String → String) (s : AgentState α) :
      NodeRun .generate_sql s (sql_generator_node g s)
  | execute (r : ExecResult α) (s : AgentState α) :
      NodeRun .execute_sql s (sql_executor_node r s)
  | synth (ans : String) (s : AgentState α) :
      NodeRun .synthesize s (synthesizer_node ans s)

/-- Reachable n s: along some run of the workflow (some behaviour of the
collaborators), node n is about to run in state s.  Parallel branches opened
by the double edge out of retrieve_docs are covered as interleavings; the
concurrent write of final_answer by an early synthesize is not merged into the
sibling branch, which is sound for every field the routing functions read
(classification, errors, retry_count), since synthesizer_node writes none of
them. -/
inductive Reachable {α : Type} : Node → AgentState α → Prop where
  | init (q : String) (fh : Option String) :
      Reachable .router (initState q fh)
  | step {n : Node} {s s' : AgentState α} {n' : Node} :
      Reachable n s → NodeRun n s s' → n' ∈ stepTargets n s' →
      Reachable n' s'

/-! ## src/agent/rag/retrieval.py: chunking

_split_into_chunks splits with re.split applied to the pattern of two or more
consecutive newlines (a backslash-n pair followed by a Kleene plus), keeps the
paragraphs whose strip() is non-empty, and records for each kept paragraph its
index in the FULL paragraph list (enumerate runs over every paragraph,
discarded ones included). -/

/-- Python str.strip() whitespace set (ASCII part; the corpus is ASCII
markdown). -/
def isPySpace (c : Char) : Bool :=
  c = ' ' || c = '\t' || c = '\n' || c = '\r' || c = '\x0b' || c = '\x0c'

/-- Python str.strip(): drop leading and trailing whitespace. -/
def strip (l : List Char) : List Char :=
  ((l.dropWhile isPySpace).reverse.dropWhile isPySpace).reverse

/-- State of the scan implementing the regex split: paragraphs already
completed, the current paragraph (in reverse), and the count of newline
characters just read and not yet committed to either side. -/
structure SplitState where
  done : List (List Char)
  cur : List Char
  pending : Nat
deriving DecidableEq

/-- One character of the regex split of the pattern matching two or more
newlines: a run of at least two newlines (greedy, maximal) separates
paragraphs; a single newline stays inside its paragraph. -/
def splitStep (st : SplitState) (c : Char) : SplitState :=
  if c = '\n' then { st with pending := st.pending + 1 }
  else if 2 ≤ st.pending then
    { done := st.done ++ [st.cur.reverse], cur := [c], pending := 0 }
  else
    { st with cur := c :: (List.replicate st.pending '\n' ++ st.cur),
              pending := 0 }

/-- re.split on the two-or-more-newlines pattern, as a left fold over the
content.  A trailing separator yields a final empty paragraph, exactly as
re.split does. -/
def splitParas (content : List Char) : List (List Char) :=
  let st := content.foldl splitStep ⟨[], [], 0⟩
  if 2 ≤ st.pending then st.done ++ [st.cur.reverse, []]
  else st.done ++ [(List.replicate st.pending '\n' ++ st.cur).reverse]

/-- A retained fragment: the dict appended on lines 27-31 of retrieval.py. -/
structure Chunk where
  content : String
  source : String
  chunk_id : Nat
deriving DecidableEq

/-- The loop body of _split_into_chunks: enumerate the paragraphs starting at
index i, keep those whose strip() is truthy, store the stripped content and
the enumeration index. -/
def chunksFrom (filename : String) : Nat → List (List Char) → List Chunk
  | _, [] => []
  | i, p :: ps =>
    if strip p = [] then chunksFrom filename (i + 1) ps
    else ⟨String.mk (strip p), filename, i⟩ :: chunksFrom filename (i + 1) ps

/-- LocalRetriever._split_into_chunks (lines 21-31), as the list of chunks it
appends for one document. -/
def split_into_chunks (content : String) (filename : String) : List Chunk :=
  chunksFrom filename 0 (splitParas content.data)

/-! ## retrieval.py: search -/

/-- The retriever state the search method reads: the chunk list, and whether
self.tfidf_matrix is set (index_directory sets it only when chunks exist and
the sklearn fit succeeds). -/
structure LocalRetriever where
  chunks : List Chunk
  hasMatrix : Bool
deriving DecidableEq

/-- cosine_similarities[i], with the numpy out-of-range convention irrelevant
because argsort only produces in-range indices. -/
def scoreAt (sims : List ℚ) (i : Nat) : ℚ :=
  sims.getD i 0

/-- Insert index i into an ascending-by-score index list, after all indices of
score less than or equal to its own (the stable position). -/
def insertAsc (sims : List ℚ) (i : Nat) : List Nat → List Nat
  | [] => [i]
  | j :: rest =>
      if scoreAt sims i < scoreAt sims j then i :: j :: rest
      else j :: insertAsc sims i rest

/-- np.argsort of the similarity vector: the indices 0..n-1 ordered by
ascending score.  np.argsort is deterministic; on ties its default sort keeps
the original index order on small arrays (insertion sort), which is the
stable order modelled here: equal scores stay in ascending index order. -/
def argsort (sims : List ℚ) : List Nat :=
  (List.range sims.length).foldl (fun acc i => insertAsc sims i acc) []

/-- Python and numpy slice l[-k:]: the last k elements, except that -0 is 0 so
k = 0 yields the whole sequence. -/
def lastSlice {β : Type} (k : Nat) (l : List β) : List β :=
  if k = 0 then l else l.drop (l.length - k)

/-- top_k_indices of line 75: argsort ascending, slice the last k, reverse. -/
def searchOrder (sims : List ℚ) (k : Nat) : List Nat :=
  (lastSlice k (argsort sims)).reverse

/-- One search result: the dict of lines 79-82. -/
structure SearchHit where
  score : ℚ
  chunk : Chunk
deriving DecidableEq

/-- LocalRetriever.search (lines 51-83).  The similarity vector sims (one
entry per chunk) is the sklearn-computed cosine_similarity output, a parameter
of the boundary; everything after it is the literal method body: the unbuilt
or empty index returns [], otherwise the top-k indices are mapped to
score-and-chunk records. -/
def search (r : LocalRetriever) (sims : List ℚ) (k : Nat) : List SearchHit :=
  if r.hasMatrix = false ∨ r.chunks = [] then []
  else (searchOrder sims k).map
    (fun i => ⟨scoreAt sims i, r.chunks.getD i ⟨"", "", 0⟩⟩)

/-! ## src/rag_agent_hybrid.py: run_batch (lines 28-71) -/

/-- One input record of the batch JSONL file: question, optional format hint,
optional id. -/
structure InRecord where
  question : String
  format_hint : Option String
  id : Option String
deriving DecidableEq

/-- The outcome of app.invoke for one record: either the LangGraph run raises
an exception (of any kind: classification failure, generation failure, a
routing label outside the path map, a connection error, ...), or it returns a
final state whose final_answer field is read (None when never set). -/
inductive RunOutcome where
  | raises (msg : String)
  | returns (final_answer : Option String)
deriving DecidableEq

/-- One line of the output JSONL file: either the re-serialised parse of a
valid final answer, or the structured error record of line 67. -/
inductive OutLine where
  | parsed (raw : String)
  | errorRecord (id : String) (error : String) (raw_output : Option String)
deriving DecidableEq

/-- The body of the per-record try/except (lines 54-67): an empty or missing
final answer raises ValueError, an unparseable one raises JSONDecodeError,
and both are caught and turned into the error record whose id is the record id
or the placeholder built from the 1-based position, whose error field is the
fixed tag, and whose raw_output is the unparsed text.  The json.loads
boundary is the predicate parse. -/
def lineFor (parse : String → Bool) (i : Nat) (item : InRecord)
    (ans : Option String) : OutLine :=
  match ans with
  | some raw =>
      if raw ≠ "" ∧ parse raw then .parsed raw
      else .errorRecord (item.id.getD ("error_" ++ toString (i + 1)))
        "Failed to generate valid JSON response." (some raw)
  | none => .errorRecord (item.id.getD ("error_" ++ toString (i + 1)))
      "Failed to generate valid JSON response." none

/-- The record loop of run_batch from position i on.  app.invoke (line 52) is
OUTSIDE the try block, so an exception raised by the run itself propagates
out of run_batch: no line is written for that record or any later one, and
the already written lines survive (the Boolean marks the abort). -/
def runBatchFrom (parse : String → Bool) (outcomes : Nat → RunOutcome) :
    Nat → List InRecord → List OutLine × Bool
  | _, [] => ([], false)
  | i, item :: rest =>
    match outcomes i with
    | .raises _ => ([], true)
    | .returns ans =>
        let r := runBatchFrom parse outcomes (i + 1) rest
        (lineFor parse i item ans :: r.1, r.2)

/-- run_batch (lines 28-71): process the records in order from position 0,
writing one line per completed record. -/
def run_batch (parse : String → Bool) (outcomes : Nat → RunOutcome)
    (items : List InRecord) : List OutLine × Bool :=
  runBatchFrom parse outcomes 0 items

/-! ## Auxiliary definitions used by the theorems -/

/-- The inductive invariant of the workflow graph, indexed by the node about
to run: the retry counter stays at or below 2, the error log holds at most
one entry, and the node-specific strengthenings needed to push the invariant
through every transition. -/
def Inv {α : Type} (n : Node) (s : AgentState α) : Prop :=
  s.retry_count ≤ 2 ∧ s.errors.length ≤ 1 ∧
  (n = Node.router → s.retry_count = 0 ∧ s.errors = []) ∧
  (n = Node.retrieve_docs → s.retry_count = 0) ∧
  (n = Node.generate_sql → s.retry_count ≤ 1) ∧
  (n = Node.execute_sql → s.retry_count ≤ 1 ∧ s.errors = [])

/-- The strict lexicographic order realised by a stable ascending argsort:
smaller score first, ties in ascending index order. -/
def idxLt (sims : List ℚ) (i j : Nat) : Prop :=
  scoreAt sims i < scoreAt sims j ∨ (scoreAt sims i = scoreAt sims j ∧ i < j)

/-- A concrete run prefix: initial state of a batch record with question q. -/
def cexQ0 : AgentState String := initState "q" none

/-- After router_node classifies the question SQL. -/
def cexS1 : AgentState String := router_node "SQL" cexQ0

/-- After the first generation attempt. -/
def cexS2 : AgentState String :=
  sql_generator_node (fun _ => "SELECT a FROM t") cexS1

/-- After the first execution fails: one error recorded, retry counter 1. -/
def cexS3 : AgentState String :=
  sql_executor_node (ExecResult.err "no such column: a") cexS2

/-- After the second generation attempt (errors cleared again). -/
def cexS4 : AgentState String :=
  sql_generator_node (fun _ => "SELECT b FROM t") cexS3

/-- After the second execution also fails: retry counter 2. -/
def cexS5 : AgentState String :=
  sql_executor_node (ExecResult.err "no such column: b") cexS4

/-- State right after retrieve_docs completes on a Hybrid-classified run. -/
def hybridS : AgentState String :=
  retriever_node ["a.md::chunk_0\nCats are mammals.\n0.5"]
    (router_node "Hybrid" cexQ0)

/-- State right after retrieve_docs completes on a RAG-classified run. -/
def ragS : AgentState String :=
  retriever_node ["b.md::chunk_0\nParis is a city.\n0.4"]
    (router_node "RAG" cexQ0)

/-- State after the router produced a label outside the path map. -/
def weirdS : AgentState String := router_node "Math" cexQ0

/-- A two-fragment built index: the two paragraphs of the a.md scenario of
the specification. -/
def mammalsRetriever : LocalRetriever :=
  ⟨[⟨"Cats are mammals.", "a.md", 0⟩, ⟨"Dogs are mammals too.", "a.md", 1⟩],
    true⟩

/-- A concrete database boundary: one query with a result set, one statement
without column metadata, everything else an sqlite3.Error. -/
def demoDb : String → DbResponse String := fun q =>
  if q = "SELECT CompanyName FROM Customers" then
    DbResponse.result [["Alfreds Futterkiste"]] (some ["CompanyName"])
  else if q = "CREATE TABLE t (x)" then DbResponse.result [] none
  else DbResponse.raises "near \"SELEC\": syntax error"

/-- A concrete two-record batch. -/
def batchItems : List InRecord :=
  [⟨"How many products are there?", none, none⟩,
   ⟨"What is the return policy?", some "short answer", some "q2"⟩]

/-! ## Helper lemmas: successor analysis of the wired graph -/

theorem routerPathMap_mem {lbl : String} {n : Node}
    (h : routerPathMap lbl = some n) :
    n = Node.generate_sql ∨ n = Node.retrieve_docs := by
  unfold routerPathMap at h
  split_ifs at h <;> simp_all

theorem retrievePathMap_mem {lbl : String} {n : Node}
    (h : retrievePathMap lbl = some n) :
    n = Node.generate_sql ∨ n = Node.synthesize := by
  unfold retrievePathMap at h
  split_ifs at h <;> simp_all

theorem mem_stepTargets_router {α : Type} {s : AgentState α} {n' : Node}
    (h : n' ∈ stepTargets Node.router s) :
    n' = Node.generate_sql ∨ n' = Node.retrieve_docs := by
  simp only [stepTargets, Option.mem_toList, Option.mem_def,
    Option.bind_eq_some] at h
  obtain ⟨lbl, -, hpm⟩ := h
  exact routerPathMap_mem hpm

theorem mem_stepTargets_retrieve {α : Type} {s : AgentState α} {n' : Node}
    (h : n' ∈ stepTargets Node.retrieve_docs s) :
    n' = Node.synthesize ∨ n' = Node.generate_sql := by
  simp only [stepTargets, List.mem_cons, Option.mem_toList,
    Option.mem_def] at h
  rcases h with h | h
  · exact Or.inl h
  · rcases retrievePathMap_mem h with h | h
    · exact Or.inr h
    · exact Or.inl h

theorem mem_stepTargets_generate {α : Type} {s : AgentState α} {n' : Node}
    (h : n' ∈ stepTargets Node.generate_sql s) : n' = Node.execute_sql := by
  simpa [stepTargets] using h

theorem mem_stepTargets_execute {α : Type} {s : AgentState α} {n' : Node}
    (h : n' ∈ stepTargets Node.execute_sql s) :
    (n' = Node.generate_sql ∧ s.errors ≠ [] ∧ s.retry_count < 2) ∨
      n' = Node.synthesize := by
  by_cases hc : s.errors ≠ [] ∧ s.retry_count < 2
  · have e1 : check_sql_execution s = "generate_sql" := by
      unfold check_sql_execution
      rw [if_pos hc]
    have e2 : stepTargets Node.execute_sql s = [Node.generate_sql] := by
      show (executePathMap (check_sql_execution s)).toList = _
      rw [e1]
      decide
    rw [e2] at h
    simp at h
    exact Or.inl ⟨h, hc⟩
  · have e1 : check_sql_execution s = "synthesize" := by
      unfold check_sql_execution
      rw [if_neg hc]
    have e2 : stepTargets Node.execute_sql s = [Node.synthesize] := by
      show (executePathMap (check_sql_execution s)).toList = _
      rw [e1]
      decide
    rw [e2] at h
    simp at h
    exact Or.inr h

theorem mem_stepTargets_synth {α : Type} {s : AgentState α} {n' : Node}
    (h : n' ∈ stepTargets Node.synthesize s) : n' = Node.terminal := by
  simpa [stepTargets] using h

/-! ## Helper lemmas: the inductive invariant -/

theorem inv_clean {α : Type} (n : Node) (s : AgentState α)
    (h1 : s.retry_count = 0) (h2 : s.errors = []) : Inv n s := by
  simp [Inv, h1, h2]

theorem reachable_inv {α : Type} {n : Node} {s : AgentState α}
    (h : Reachable n s) : Inv n s := by
  induction h with
  | init q fh => exact inv_clean _ _ rfl rfl
  | step hr hrun hmem ih =>
      cases hrun with
      | router c s0 =>
          have h0 := ih.2.2.1 rfl
          exact inv_clean _ _ (by simp [router_node, h0.1])
            (by simp [router_node])
      | retrieve docs s0 =>
          have h0 := ih.2.2.2.1 rfl
          have he := ih.2.1
          rcases mem_stepTargets_retrieve hmem with rfl | rfl <;>
            simp [Inv, retriever_node, h0, he]
      | generate g s0 =>
          have h0 := ih.2.2.2.2.1 rfl
          have hn := mem_stepTargets_generate hmem
          subst hn
          simp [Inv, sql_generator_node, h0]
          omega
      | execute r s0 =>
          have h0 := ih.2.2.2.2.2 rfl
          cases r with
          | ok rows cols =>
              rcases mem_stepTargets_execute hmem with ⟨rfl, hne, -⟩ | rfl
              · exact absurd h0.2 (by simpa [sql_executor_node] using hne)
              · simp [Inv, sql_executor_node, h0.2]
                omega
          | err m =>
              rcases mem_stepTargets_execute hmem with ⟨rfl, -, hlt⟩ | rfl
              · simp [sql_executor_node] at hlt
                simp [Inv, sql_executor_node, h0.2]
                omega
              · simp [Inv, sql_executor_node, h0.2]
                omega
      | synth ans s0 =>
          have hn := mem_stepTargets_synth hmem
          subst hn
          simp [Inv, synthesizer_node]
          exact ⟨ih.1, ih.2.1⟩

/-! ## Claim C1 -/

/-- C1 (amended): along every execution trace the retry counter never
exceeds 2; a failed ExecuteQuery step increments the counter by exactly 1,
and the single scheduled successor is GenerateQuery when the incremented
counter is still below 2 (that is, only when the counter was 0 before the
step) and Synthesize when the incremented counter has reached 2.  The
original claim routed on the pre-step counter being below 2; the code
compares the already incremented counter with 2, so a failure occurring with
pre-step counter 1 proceeds to Synthesize. -/
theorem C1_retry_bound (α : Type) :
    (∀ (n : Node) (s : AgentState α), Reachable n s → s.retry_count ≤ 2) ∧
    (∀ (s : AgentState α) (m : String),
      (sql_executor_node (ExecResult.err m) s).retry_count =
        s.retry_count + 1 ∧
      (s.retry_count + 1 < 2 →
        stepTargets Node.execute_sql (sql_executor_node (ExecResult.err m) s) =
          [Node.generate_sql]) ∧
      (2 ≤ s.retry_count + 1 →
        stepTargets Node.execute_sql (sql_executor_node (ExecResult.err m) s) =
          [Node.synthesize])) := by
  constructor
  · intro n s h
    exact (reachable_inv h).1
  · intro s m
    refine ⟨rfl, ?_, ?_⟩
    · intro hlt
      have hc : (sql_executor_node (ExecResult.err m) s).errors ≠ [] ∧
          (sql_executor_node (ExecResult.err m) s).retry_count < 2 := by
        constructor
        · simp [sql_executor_node]
        · simpa [sql_executor_node] using hlt
      have e1 : check_sql_execution (sql_executor_node (ExecResult.err m) s) =
          "generate_sql" := by
        unfold check_sql_execution
        rw [if_pos hc]
      show (executePathMap (check_sql_execution
        (sql_executor_node (ExecResult.err m) s))).toList = _
      rw [e1]
      decide
    · intro hge
      have hc : ¬ ((sql_executor_node (ExecResult.err m) s).errors ≠ [] ∧
          (sql_executor_node (ExecResult.err m) s).retry_count < 2) := by
        rintro ⟨-, hlt⟩
        simp [sql_executor_node] at hlt
        omega
      have e1 : check_sql_execution (sql_executor_node (ExecResult.err m) s) =
          "synthesize" := by
        unfold check_sql_execution
        rw [if_neg hc]
      show (executePathMap (check_sql_execution
        (sql_executor_node (ExecResult.err m) s))).toList = _
      rw [e1]
      decide

/-- C1 witness: the invariant instantiated at the initial state, and the
failure transition evaluated at a concrete state with counter 0. -/
theorem C1_witness :
    cexQ0.retry_count ≤ 2 ∧
    (sql_executor_node (ExecResult.err "boom")
      cexQ0).retry_count =
      cexQ0.retry_count + 1 ∧
    stepTargets Node.execute_sql
      (sql_executor_node (ExecResult.err "boom")
        cexQ0) = [Node.generate_sql] :=
  ⟨(C1_retry_bound String).1 Node.router _ (Reachable.init "q" none),
   ((C1_retry_bound String).2 (initState "q" none) "boom").1,
   ((C1_retry_bound String).2 (initState "q" none) "boom").2.1 (by decide)⟩

/-- C1 counterexample: a reachable trace in which the second ExecuteQuery
step starts with retry counter 1 (below 2) and fails, yet the only scheduled
successor is Synthesize, not GenerateQuery as the claim states. -/
theorem C1_counterexample :
    Reachable Node.execute_sql cexS4 ∧
    cexS4.retry_count = 1 ∧
    NodeRun Node.execute_sql cexS4 cexS5 ∧
    cexS5.retry_count = 2 ∧
    stepTargets Node.execute_sql cexS5 = [Node.synthesize] ∧
    Node.generate_sql ∉ stepTargets Node.execute_sql cexS5 := by
  refine ⟨?_, by decide, ?_, by decide, by decide, by decide⟩
  · have r0 : Reachable Node.router cexQ0 := Reachable.init "q" none
    have r1 : Reachable Node.generate_sql cexS1 :=
      Reachable.step r0 (NodeRun.router "SQL" cexQ0) (by decide)
    have r2 : Reachable Node.execute_sql cexS2 :=
      Reachable.step r1
        (NodeRun.generate (fun _ => "SELECT a FROM t") cexS1) (by decide)
    have r3 : Reachable Node.generate_sql cexS3 :=
      Reachable.step r2
        (NodeRun.execute (ExecResult.err "no such column: a") cexS2)
        (by decide)
    exact Reachable.step r3
      (NodeRun.generate (fun _ => "SELECT b FROM t") cexS3) (by decide)
  · exact NodeRun.execute (ExecResult.err "no such column: b") cexS4

/-! ## Claim C2 -/

/-- C2: evaluation of the wired graph on a Hybrid run.  Because line 151 adds
the unconditional edge from retrieve_docs to synthesize in addition to the
conditional edges of lines 161-164, the successors of retrieve_docs on a
Hybrid-classified state are synthesize AND generate_sql: Synthesize is
scheduled directly from RetrieveDocs, before any SQL step has run (the
reachable state below has no sql_query and no sql_results).  On a RAG run
both edges point at synthesize, so the retrieval-only half of the claim
holds. -/
theorem C2_hybrid_direct_synthesize :
    stepTargets Node.retrieve_docs hybridS =
      [Node.synthesize, Node.generate_sql] ∧
    Reachable Node.synthesize hybridS ∧
    hybridS.classification = some "Hybrid" ∧
    hybridS.sql_results = none ∧
    hybridS.sql_query = none ∧
    stepTargets Node.retrieve_docs ragS =
      [Node.synthesize, Node.synthesize] := by
  refine ⟨by decide, ?_, by decide, by decide, by decide, by decide⟩
  have r0 : Reachable Node.router cexQ0 := Reachable.init "q" none
  have r1 : Reachable Node.retrieve_docs (router_node "Hybrid" cexQ0) :=
    Reachable.step r0 (NodeRun.router "Hybrid" cexQ0) (by decide)
  exact Reachable.step r1
    (NodeRun.retrieve ["a.md::chunk_0\nCats are mammals.\n0.5"]
      (router_node "Hybrid" cexQ0)) (by decide)

/-! ## Claim C4 -/

/-- C4: when the error log is non-empty the question presented to the
generator is exactly the repair template built from the joined errors and the
original question, otherwise the question is passed unchanged; the generator
node clears the error log and stores the query produced from the presented
question; and in any reachable entry to GenerateQuery the error log holds at
most the one failure recorded since the previous generation cleared it. -/
theorem C4_repair_template (α : Type) (s : AgentState α)
    (g : String → String) :
    questionWithContext s =
      (if s.errors = [] then s.question
       else "Previous attempt failed with error: " ++
         String.intercalate "\n" s.errors ++
         ". Please correct the query. Original question: " ++ s.question) ∧
    (sql_generator_node g s).errors = [] ∧
    (sql_generator_node g s).sql_query =
      some (g (questionWithContext s)) ∧
    (Reachable Node.generate_sql s → s.errors.length ≤ 1) := by
  refine ⟨?_, rfl, rfl, fun h => (reachable_inv h).2.1⟩
  by_cases he : s.errors = []
  · simp [questionWithContext, errorContext, he]
  · simp [questionWithContext, errorContext, he]

/-- C4 witness: the template evaluated at the reachable retry state cexS3,
whose error log holds the single recorded failure. -/
theorem C4_witness :
    questionWithContext cexS3 =
      "Previous attempt failed with error: no such column: a. Please correct the query. Original question: q" ∧
    cexS3.errors.length ≤ 1 := by
  refine ⟨by decide, ?_⟩
  apply (C4_repair_template String cexS3 (fun s => s)).2.2.2
  have r0 : Reachable Node.router cexQ0 := Reachable.init "q" none
  have r1 : Reachable Node.generate_sql cexS1 :=
    Reachable.step r0 (NodeRun.router "SQL" cexQ0) (by decide)
  have r2 : Reachable Node.execute_sql cexS2 :=
    Reachable.step r1
      (NodeRun.generate (fun _ => "SELECT a FROM t") cexS1) (by decide)
  exact Reachable.step r2
    (NodeRun.execute (ExecResult.err "no such column: a") cexS2) (by decide)

/-! ## Claim C9 -/

/-- C9: in every reachable state the error log holds at most one entry; the
initial state and the router leave it empty, every generation step resets it
to empty, and a failed execution appends exactly one entry. -/
theorem C9_error_log_bound (α : Type) :
    (∀ (n : Node) (s : AgentState α), Reachable n s → s.errors.length ≤ 1) ∧
    (∀ (q : String) (fh : Option String),
      (initState q fh : AgentState α).errors = []) ∧
    (∀ (c : String) (s : AgentState α), (router_node c s).errors = []) ∧
    (∀ (g : String → String) (s : AgentState α),
      (sql_generator_node g s).errors = []) ∧
    (∀ (m : String) (s : AgentState α),
      (sql_executor_node (ExecResult.err m) s).errors = s.errors ++ [m]) :=
  ⟨fun _ _ h => (reachable_inv h).2.1, fun _ _ => rfl, fun _ _ => rfl,
   fun _ _ => rfl, fun _ _ => rfl⟩

/-- C9 witness: the invariant and the three step facts instantiated at
concrete states. -/
theorem C9_witness :
    cexQ0.errors.length ≤ 1 ∧
    (router_node "SQL" cexQ0).errors = [] ∧
    (sql_generator_node (fun s => s)
      cexQ0).errors = [] ∧
    (sql_executor_node (ExecResult.err "e")
      cexQ0).errors = [] ++ ["e"] :=
  ⟨(C9_error_log_bound String).1 Node.router _ (Reachable.init "q" none),
   (C9_error_log_bound String).2.2.1 "SQL" _,
   (C9_error_log_bound String).2.2.2.1 (fun s => s) _,
   (C9_error_log_bound String).2.2.2.2 "e" _⟩

/-! ## Claim C10 -/

/-- C10: a classification outside SQL, RAG and Hybrid makes route_question
return None, and then the dispatch after the router has no successor at all:
the run fails at the dispatch point instead of defaulting to a branch. -/
theorem C10_unknown_label (α : Type) (s : AgentState α) (c : String)
    (hc : s.classification = some c)
    (h1 : c ≠ "SQL") (h2 : c ≠ "RAG") (h3 : c ≠ "Hybrid") :
    route_question s = none ∧ stepTargets Node.router s = [] := by
  have e1 : ¬ s.classification = some "SQL" := by
    rw [hc]
    simp [h1]
  have e2 : ¬ s.classification = some "RAG" := by
    rw [hc]
    simp [h2]
  have e3 : ¬ s.classification = some "Hybrid" := by
    rw [hc]
    simp [h3]
  have hq : route_question s = none := by
    unfold route_question
    rw [if_neg e1, if_neg e2, if_neg e3]
  exact ⟨hq, by simp [stepTargets, hq]⟩

/-- C10 witness: the routing function evaluated at a state whose
classification is the out-of-range label Math. -/
theorem C10_witness :
    route_question weirdS = none ∧ stepTargets Node.router weirdS = [] :=
  C10_unknown_label String weirdS "Math" rfl (by decide) (by decide)
    (by decide)

/-! ## Helper lemmas: the argsort pipeline -/

theorem idxLt_trans {sims : List ℚ} {a b c : Nat}
    (h1 : idxLt sims a b) (h2 : idxLt sims b c) : idxLt sims a c := by
  rcases h1 with h1 | ⟨e1, l1⟩ <;> rcases h2 with h2 | ⟨e2, l2⟩
  · exact Or.inl (lt_trans h1 h2)
  · exact Or.inl (e2 ▸ h1)
  · exact Or.inl (e1 ▸ h2)
  · exact Or.inr ⟨e1.trans e2, lt_trans l1 l2⟩

theorem mem_insertAsc {sims : List ℚ} {i : Nat} {l : List Nat} {j : Nat}
    (h : j ∈ insertAsc sims i l) : j = i ∨ j ∈ l := by
  induction l with
  | nil => simpa [insertAsc] using h
  | cons x rest ih =>
      simp only [insertAsc] at h
      split_ifs at h
      · simpa using h
      · rcases List.mem_cons.mp h with rfl | h
        · exact Or.inr (List.mem_cons_self _ _)
        · rcases ih h with rfl | h
          · exact Or.inl rfl
          · exact Or.inr (List.mem_cons_of_mem _ h)

theorem length_insertAsc (sims : List ℚ) (i : Nat) (l : List Nat) :
    (insertAsc sims i l).length = l.length + 1 := by
  induction l with
  | nil => rfl
  | cons x rest ih =>
      simp only [insertAsc]
      split_ifs <;> simp [ih]

theorem length_argsort (sims : List ℚ) :
    (argsort sims).length = sims.length := by
  have key : ∀ (L : List Nat) (acc : List Nat),
      (L.foldl (fun a i => insertAsc sims i a) acc).length =
        acc.length + L.length := by
    intro L
    induction L with
    | nil => intro acc; simp
    | cons x L ih =>
        intro acc
        simp only [List.foldl_cons, List.length_cons]
        rw [ih, length_insertAsc]
        omega
  simpa [argsort] using key (List.range sims.length) []

theorem pairwise_insertAsc {sims : List ℚ} {i : Nat} {l : List Nat}
    (hp : l.Pairwise (idxLt sims)) (hfresh : ∀ j ∈ l, j < i) :
    (insertAsc sims i l).Pairwise (idxLt sims) := by
  induction l with
  | nil => simp [insertAsc]
  | cons x rest ih =>
      rcases List.pairwise_cons.mp hp with ⟨hx, hrest⟩
      simp only [insertAsc]
      split_ifs with hlt
      · refine List.pairwise_cons.mpr ⟨?_, hp⟩
        intro y hy
        rcases List.mem_cons.mp hy with rfl | hy
        · exact Or.inl hlt
        · exact idxLt_trans (Or.inl hlt) (hx y hy)
      · refine List.pairwise_cons.mpr
          ⟨?_, ih hrest (fun j hj => hfresh j (List.mem_cons_of_mem x hj))⟩
        intro y hy
        rcases mem_insertAsc hy with rfl | hy
        · rcases lt_or_eq_of_le (not_lt.mp hlt) with h | h
          · exact Or.inl h
          · exact Or.inr ⟨h, hfresh x (List.mem_cons_self x rest)⟩
        · exact hx y hy

theorem pairwise_argsort (sims : List ℚ) :
    (argsort sims).Pairwise (idxLt sims) := by
  have key : ∀ (L : List Nat) (acc : List Nat),
      acc.Pairwise (idxLt sims) →
      (∀ j ∈ acc, ∀ i ∈ L, j < i) →
      L.Pairwise (· < ·) →
      (L.foldl (fun a i => insertAsc sims i a) acc).Pairwise (idxLt sims) := by
    intro L
    induction L with
    | nil => intro acc h _ _; simpa using h
    | cons x L ih =>
        intro acc hacc hcross hL
        rcases List.pairwise_cons.mp hL with ⟨hxL, hL'⟩
        simp only [List.foldl_cons]
        apply ih
        · exact pairwise_insertAsc hacc
            (fun j hj => hcross j hj x (List.mem_cons_self x L))
        · intro j hj i hi
          rcases mem_insertAsc hj with rfl | hj
          · exact hxL i hi
          · exact hcross j hj i (List.mem_cons_of_mem x hi)
        · exact hL'
  exact key (List.range sims.length) [] (by simp) (by simp)
    (List.pairwise_lt_range _)

theorem pairwise_searchOrder (sims : List ℚ) (k : Nat) :
    (searchOrder sims k).Pairwise (fun i j => idxLt sims j i) := by
  have h1 := pairwise_argsort sims
  have h2 : (lastSlice k (argsort sims)).Pairwise (idxLt sims) := by
    unfold lastSlice
    split_ifs
    · exact h1
    · exact h1.sublist (List.drop_sublist _ _)
  simpa [searchOrder, List.pairwise_reverse] using h2

theorem length_searchOrder (sims : List ℚ) (k : Nat) (hk : 1 ≤ k) :
    (searchOrder sims k).length = min k sims.length := by
  unfold searchOrder lastSlice
  rw [if_neg (by omega : ¬ k = 0)]
  simp [List.length_drop, length_argsort]
  omega

/-! ## Claim C3 -/

/-- C3 (amended): on any index, search returns at most k items (k positive),
ordered by non-increasing cosine-similarity score; equal-score ties are
broken by DESCENDING original chunk position (the stable ascending argsort is
reversed, so among equal scores the later fragment comes first), not by
ascending (source_id, ordinal) as claimed; and the search is a pure function
of the index, the similarity vector and k, so repeated calls with identical
arguments return identical ordered results. -/
theorem C3_search_ordering (r : LocalRetriever) (sims : List ℚ) (k : Nat)
    (hk : 1 ≤ k) :
    (search r sims k).length ≤ k ∧
    (search r sims k).Pairwise (fun a b => b.score ≤ a.score) ∧
    (searchOrder sims k).Pairwise
      (fun i j => scoreAt sims j < scoreAt sims i ∨
        (scoreAt sims j = scoreAt sims i ∧ j < i)) ∧
    search r sims k = search r sims k := by
  refine ⟨?_, ?_, pairwise_searchOrder sims k, rfl⟩
  · unfold search
    split_ifs
    · simp
    · rw [List.length_map, length_searchOrder sims k hk]
      omega
  · unfold search
    split_ifs
    · simp
    · rw [List.pairwise_map]
      refine (pairwise_searchOrder sims k).imp ?_
      intro i j h
      rcases h with h | ⟨h, -⟩
      · exact le_of_lt h
      · exact le_of_eq h

/-- C3 witness: the ordering facts instantiated on the two-fragment index
with a tied similarity vector. -/
theorem C3_witness :
    (1 ≤ 2) ∧
    (search mammalsRetriever [1, 1] 2).length ≤ 2 ∧
    search mammalsRetriever [1, 1] 2 =
      search mammalsRetriever [1, 1] 2 :=
  ⟨by decide,
   (C3_search_ordering mammalsRetriever [1, 1] 2 (by decide)).1,
   (C3_search_ordering mammalsRetriever [1, 1] 2 (by decide)).2.2.2⟩

/-- C3 counterexample: on the built two-fragment index, with both fragments
of source a.md scoring equally, search returns the ordinal-1 fragment FIRST:
equal-score ties are broken by descending ordinal, refuting the claimed
ascending (source_id, ordinal) tie order. -/
theorem C3_counterexample :
    search mammalsRetriever [1, 1] 2 =
      [⟨1, ⟨"Dogs are mammals too.", "a.md", 1⟩⟩,
       ⟨1, ⟨"Cats are mammals.", "a.md", 0⟩⟩] ∧
    (search mammalsRetriever [1, 1] 2).map
      (fun h => h.chunk.chunk_id) = [1, 0] ∧
    ¬ (search mammalsRetriever [1, 1] 2).map
      (fun h => h.chunk.chunk_id) = [0, 1] := by
  refine ⟨by decide, by decide, by decide⟩

/-! ## Claim C8 -/

/-- C8: on a built index with n fragments, search returns exactly min(k, n)
items for every similarity vector of length n and every positive k:
zero-scoring fragments (including the all-out-of-vocabulary case, where the
whole vector is zero) are kept to fill the k slots, never filtered out. -/
theorem C8_search_count (r : LocalRetriever) (sims : List ℚ) (k : Nat)
    (hm : r.hasMatrix = true) (hc : r.chunks ≠ [])
    (hlen : sims.length = r.chunks.length) (hk : 1 ≤ k) :
    (search r sims k).length = min k r.chunks.length := by
  unfold search
  rw [if_neg (by simp [hm, hc])]
  rw [List.length_map, length_searchOrder sims k hk, hlen]

/-- C8 witness: the all-zero similarity vector (every query term out of
vocabulary) on the two-fragment index still returns min 5 2 = 2 items. -/
theorem C8_witness :
    (mammalsRetriever.hasMatrix = true ∧ mammalsRetriever.chunks ≠ [] ∧
      ([(0 : ℚ), 0]).length = mammalsRetriever.chunks.length ∧ 1 ≤ 5) ∧
    (search mammalsRetriever [0, 0] 5).length =
      min 5 mammalsRetriever.chunks.length :=
  ⟨by decide,
   C8_search_count mammalsRetriever [0, 0] 5 (by decide) (by decide)
     (by decide) (by decide)⟩

/-! ## Helper lemmas: the chunking loop -/

theorem chunksFrom_mem {filename : String} {ps : List (List Char)} {i0 : Nat}
    {c : Chunk} (h : c ∈ chunksFrom filename i0 ps) :
    c.source = filename ∧ i0 ≤ c.chunk_id ∧ c.chunk_id < i0 + ps.length ∧
    strip (ps.getD (c.chunk_id - i0) []) ≠ [] ∧
    c.content = String.mk (strip (ps.getD (c.chunk_id - i0) [])) := by
  induction ps generalizing i0 with
  | nil => simp [chunksFrom] at h
  | cons p ps ih =>
      simp only [chunksFrom] at h
      split_ifs at h with hs
      · obtain ⟨h1, h2, h3, h4, h5⟩ := ih h
        have e : c.chunk_id - i0 = (c.chunk_id - (i0 + 1)) + 1 := by omega
        refine ⟨h1, by omega, ?_, ?_, ?_⟩
        · simp only [List.length_cons]
          omega
        · rw [e, List.getD_cons_succ]
          exact h4
        · rw [e, List.getD_cons_succ]
          exact h5
      · rcases List.mem_cons.mp h with rfl | h
        · refine ⟨rfl, Nat.le_refl _, ?_, ?_, ?_⟩
          · simp only [List.length_cons]
            omega
          · simpa using hs
          · simp
        · obtain ⟨h1, h2, h3, h4, h5⟩ := ih h
          have e : c.chunk_id - i0 = (c.chunk_id - (i0 + 1)) + 1 := by omega
          refine ⟨h1, by omega, ?_, ?_, ?_⟩
          · simp only [List.length_cons]
            omega
          · rw [e, List.getD_cons_succ]
            exact h4
          · rw [e, List.getD_cons_succ]
            exact h5

theorem chunksFrom_complete {filename : String} {ps : List (List Char)} :
    ∀ {i0 j : Nat}, j < ps.length → strip (ps.getD j []) ≠ [] →
      ∃ c ∈ chunksFrom filename i0 ps, c.chunk_id = i0 + j := by
  induction ps with
  | nil =>
      intro i0 j hj _
      simp at hj
  | cons p ps ih =>
      intro i0 j hj hs
      cases j with
      | zero =>
          rw [List.getD_cons_zero] at hs
          refine ⟨⟨String.mk (strip p), filename, i0⟩, ?_, by simp⟩
          simp only [chunksFrom]
          rw [if_neg hs]
          exact List.mem_cons_self _ _
      | succ j =>
          rw [List.getD_cons_succ] at hs
          have hj' : j < ps.length := by
            simp only [List.length_cons] at hj
            omega
          obtain ⟨c, hc, hid⟩ := @ih (i0 + 1) j hj' hs
          refine ⟨c, ?_, by omega⟩
          simp only [chunksFrom]
          split_ifs with h0
          · exact hc
          · exact List.mem_cons_of_mem _ hc

theorem chunksFrom_pairwise {filename : String} {ps : List (List Char)} :
    ∀ {i0 : Nat}, (chunksFrom filename i0 ps).Pairwise
      (fun a b => a.chunk_id < b.chunk_id) := by
  induction ps with
  | nil =>
      intro i0
      simp [chunksFrom]
  | cons p ps ih =>
      intro i0
      simp only [chunksFrom]
      split_ifs with hs
      · exact ih
      · refine List.pairwise_cons.mpr ⟨?_, ih⟩
        intro b hb
        have h2 := (chunksFrom_mem hb).2.1
        show i0 < b.chunk_id
        omega

/-! ## Claim C6 -/

/-- C6 (amended): index construction splits the text at maximal runs of two
or more newlines, discards every whitespace-only paragraph, and assigns each
retained fragment the 0-based index of its paragraph in the FULL split
sequence of its source (discarded paragraphs included in the count): the
ordinals are strictly increasing in order of appearance, every retained
fragment carries the stripped content of the paragraph at its ordinal, and
every non-whitespace paragraph is retained — but the ordinals of the
retained fragments are not renumbered consecutively when paragraphs are
discarded, contrary to the original claim. -/
theorem C6_chunk_ordinals (content filename : String) :
    (split_into_chunks content filename).Pairwise
      (fun a b => a.chunk_id < b.chunk_id) ∧
    (∀ c ∈ split_into_chunks content filename,
      c.source = filename ∧
      c.chunk_id < (splitParas content.data).length ∧
      strip ((splitParas content.data).getD c.chunk_id []) ≠ [] ∧
      c.content =
        String.mk (strip ((splitParas content.data).getD c.chunk_id []))) ∧
    (∀ j, j < (splitParas content.data).length →
      strip ((splitParas content.data).getD j []) ≠ [] →
      ∃ c ∈ split_into_chunks content filename, c.chunk_id = j) := by
  unfold split_into_chunks
  refine ⟨chunksFrom_pairwise, ?_, ?_⟩
  · intro c hc
    obtain ⟨h1, -, h3, h4, h5⟩ := chunksFrom_mem hc
    simp only [Nat.sub_zero] at h4 h5
    simp only [Nat.zero_add] at h3
    exact ⟨h1, h3, h4, h5⟩
  · intro j hj hs
    have h := @chunksFrom_complete filename _ 0 j hj hs
    simpa using h

/-- C6 witness: completeness instantiated on the concrete document whose
middle paragraph is whitespace-only: the retained paragraph at split index 2
yields a chunk with ordinal 2. -/
theorem C6_witness :
    (2 < (splitParas ("x\n\n \n\ny" : String).data).length ∧
      strip ((splitParas ("x\n\n \n\ny" : String).data).getD 2 []) ≠ []) ∧
    ∃ c ∈ split_into_chunks "x\n\n \n\ny" "a.md", c.chunk_id = 2 :=
  ⟨by decide,
   (C6_chunk_ordinals "x\n\n \n\ny" "a.md").2.2 2 (by decide) (by decide)⟩

/-- C6 counterexample: the document with paragraphs x, a whitespace-only one,
and y produces chunks with ordinals 0 and 2 — not the consecutive 0 and 1
the claim requires. -/
theorem C6_counterexample :
    split_into_chunks "x\n\n \n\ny" "a.md" =
      [⟨"x", "a.md", 0⟩, ⟨"y", "a.md", 2⟩] ∧
    (split_into_chunks "x\n\n \n\ny" "a.md").map (fun c => c.chunk_id) =
      [0, 2] ∧
    ¬ (split_into_chunks "x\n\n \n\ny" "a.md").map (fun c => c.chunk_id) =
      [0, 1] :=
  ⟨by decide, by decide, by decide⟩

/-! ## Claim C5 -/

/-- C5: for every database behaviour and every query, run_sqlite_query
returns exactly one of a success (rows plus column names, with the
no-column-metadata case yielding zero columns and, granted the sqlite3
guarantee that such a cursor fetches no rows, zero rows) or a failure
carrying the engine error text verbatim; the failure case is exactly the
case in which the returned column slot is None, and the executor node feeds
the verbatim failure text into the error log without touching the stored
results. -/
theorem C5_execute_dichotomy (α : Type) (db : String → DbResponse α)
    (q : String) :
    ((∃ rows cols, run_sqlite_query db q = ExecResult.ok rows cols) ↔
      pyColumns (run_sqlite_query db q) ≠ none) ∧
    ((∃ m, run_sqlite_query db q = ExecResult.err m) ↔
      pyColumns (run_sqlite_query db q) = none) ∧
    (∀ m, db q = DbResponse.raises m →
      run_sqlite_query db q = ExecResult.err m) ∧
    (∀ rows desc, db q = DbResponse.result rows desc →
      run_sqlite_query db q = ExecResult.ok rows (desc.getD [])) ∧
    (∀ rows, db q = DbResponse.result rows none → rows = [] →
      run_sqlite_query db q = ExecResult.ok [] []) ∧
    (∀ (m : String) (s : AgentState α),
      (sql_executor_node (ExecResult.err m) s).errors = s.errors ++ [m] ∧
      (sql_executor_node (ExecResult.err m) s).sql_results = s.sql_results ∧
      pyColumns (ExecResult.err m : ExecResult α) = none) := by
  refine ⟨?_, ?_, ?_, ?_, ?_, ?_⟩
  · cases hdb : db q <;> simp [run_sqlite_query, hdb, pyColumns]
  · cases hdb : db q <;> simp [run_sqlite_query, hdb, pyColumns]
  · intro m h
    simp [run_sqlite_query, h]
  · intro rows desc h
    simp [run_sqlite_query, h]
  · intro rows h hr
    subst hr
    simp [run_sqlite_query, h]
  · intro m s
    exact ⟨rfl, rfl, rfl⟩

/-- C5 witness: the dichotomy evaluated on a concrete database boundary: a
syntactically invalid query yields the verbatim error with the None column
marker, and a statement without column metadata yields the empty success. -/
theorem C5_witness :
    run_sqlite_query demoDb "SELEC * FROM Customers" =
      ExecResult.err "near \"SELEC\": syntax error" ∧
    pyColumns (run_sqlite_query demoDb "SELEC * FROM Customers") = none ∧
    run_sqlite_query demoDb "CREATE TABLE t (x)" = ExecResult.ok [] [] := by
  have h := C5_execute_dichotomy String demoDb "SELEC * FROM Customers"
  have e1 := h.2.2.1 "near \"SELEC\": syntax error" (by decide)
  have e2 := h.2.1.mp ⟨_, e1⟩
  have h2 := C5_execute_dichotomy String demoDb "CREATE TABLE t (x)"
  exact ⟨e1, e2, h2.2.2.2.2.1 [] (by decide) rfl⟩

/-! ## Helper lemma: the batch loop on non-raising runs -/

theorem runBatchFrom_returns (parse : String → Bool)
    (ans : Nat → Option String) :
    ∀ (items : List InRecord) (i : Nat),
      runBatchFrom parse (fun n => RunOutcome.returns (ans n)) i items =
        ((items.enumFrom i).map (fun p => lineFor parse p.1 p.2 (ans p.1)),
          false) := by
  intro items
  induction items with
  | nil => intro i; rfl
  | cons item rest ih =>
      intro i
      simp only [runBatchFrom, List.enumFrom, List.map_cons, ih (i + 1)]

/-! ## Claim C7 -/

/-- C7 (amended): when every invocation of the workflow returns (no raised
exception), the batch writes exactly one line per input record, in input
order, and a record whose final answer fails to parse yields the error
record carrying the original identifier or the generated placeholder, the
fixed error tag, and the raw unparsed text.  The original claim also said a
run failure of ANY kind continues to the next record; the counterexample
shows a raised exception aborts the batch instead, because app.invoke sits
outside the try block. -/
theorem C7_batch_continuation (parse : String → Bool)
    (ans : Nat → Option String) (items : List InRecord) :
    (run_batch parse (fun n => RunOutcome.returns (ans n)) items).2 =
      false ∧
    (run_batch parse (fun n => RunOutcome.returns (ans n)) items).1.length =
      items.length ∧
    (run_batch parse (fun n => RunOutcome.returns (ans n)) items).1 =
      items.enum.map (fun p => lineFor parse p.1 p.2 (ans p.1)) ∧
    (∀ (i : Nat) (item : InRecord) (raw : String), parse raw = false →
      lineFor parse i item (some raw) =
        OutLine.errorRecord (item.id.getD ("error_" ++ toString (i + 1)))
          "Failed to generate valid JSON response." (some raw)) ∧
    (∀ (i : Nat) (item : InRecord),
      lineFor parse i item none =
        OutLine.errorRecord (item.id.getD ("error_" ++ toString (i + 1)))
          "Failed to generate valid JSON response." none) := by
  have key := runBatchFrom_returns parse ans items 0
  refine ⟨?_, ?_, ?_, ?_, ?_⟩
  · rw [run_batch, key]
  · rw [run_batch, key]
    simp [List.enumFrom_length]
  · rw [run_batch, key, List.enum]
  · intro i item raw hp
    simp [lineFor, hp]
  · intro i item
    rfl

/-- C7 witness: a two-record batch in which both runs return, one parseable
and one not: two lines, in order, the second the error record with the
original identifier q2. -/
theorem C7_witness :
    (run_batch (fun s => s = "ok")
      (fun n => RunOutcome.returns
        ((fun i => if i = 0 then some "ok" else some "bad") n))
      batchItems).1.length = batchItems.length ∧
    lineFor (fun s => s = "ok") 1
      ⟨"What is the return policy?", some "short answer", some "q2"⟩
      (some "bad") =
      OutLine.errorRecord "q2" "Failed to generate valid JSON response."
        (some "bad") :=
  ⟨(C7_batch_continuation (fun s => s = "ok")
      (fun i => if i = 0 then some "ok" else some "bad") batchItems).2.1,
   (C7_batch_continuation (fun s => s = "ok")
      (fun i => if i = 0 then some "ok" else some "bad") batchItems).2.2.2.1 1
      ⟨"What is the return policy?", some "short answer", some "q2"⟩ "bad"
      (by decide)⟩

/-- C7 counterexample: a batch whose first run raises (a failure kind other
than a synthesis parse failure, for example a connection error out of the
model call on line 52, which is outside the try block): no line is written
for either input record and the loop aborts, refuting both the
continue-to-the-next-record behaviour and one-line-per-input. -/
theorem C7_counterexample :
    run_batch (fun _ => true)
      (fun _ => RunOutcome.raises "ConnectionError: model endpoint down")
      batchItems = ([], true) ∧
    batchItems.length = 2 ∧
    ¬ (run_batch (fun _ => true)
      (fun _ => RunOutcome.raises "ConnectionError: model endpoint down")
      batchItems).1.length = batchItems.length :=
  ⟨rfl, rfl, by decide⟩

end RetailCopilot
